import Mathlib

/-!
Verification of the Hecate USB-to-PS/2 converter core against its
natural-language specification.  The definitions below are shallow
embeddings of the C sources: the PS/2 link layer (`ps2out.c`), the
keyboard protocol (`ps2_keyboard.c`), the mouse protocol (`ps2_mouse.c`)
and the HID report dispatcher (`main.c`).  Machine integers are modelled
as `Nat` (unsigned) or `Int` (signed) with explicit masking/wrapping
where the C code truncates.
-/

namespace Hecate

/-! ## PS/2 link layer (`ps2out.c`) -/

/-- Odd parity over the low 8 bits of a byte, computed exactly like the
C loop in `ps2_frame` / `ps2out_task`: start at 1 and xor each data bit. -/
def oddParity (b : Nat) : Nat :=
  (List.range 8).foldl (fun p i => p ^^^ ((b >>> i) &&& 1)) 1

/-- The 11-bit wire frame built by `ps2_frame`:
`((1 << 10) | (parity << 9) | (byte << 1)) ^ 0x7ff`. -/
def ps2_frame (byte : Nat) : Nat :=
  ((1 <<< 10) ||| (oddParity byte <<< 9) ||| (byte <<< 1)) ^^^ 0x7ff

/-- Per-port link state (`ps2out` struct): queued packets (each a payload
byte list, at most 32 queued), the last received and transmitted bytes,
the cursor `sent` into the head packet, and the busy countdown. -/
structure Ps2out where
  packets : List (List Nat)
  lastRx : Nat
  lastTx : Nat
  sent : Nat
  busy : Nat
deriving Repr, DecidableEq

/-- Initial link state as set up by `ps2out_init`. -/
def ps2outInit : Ps2out := ⟨[], 0, 0, 0, 0⟩

/-- `ps2out_send`: copy the payload into the bounded (32-entry) packet
queue; a full queue silently drops the packet (`queue_try_add`). -/
def ps2out_send (p : List Nat) (s : Ps2out) : Ps2out :=
  if s.packets.length < 32 then { s with packets := s.packets ++ [p] } else s

/-- Result of one `ps2out_task` poll: the new state, the byte framed by
the transmit phase (if any), the byte framed in direct response to a
received frame (resend request or retransmission, if any), and the
`(byte, prev_byte)` pair passed to the receive callback (if invoked). -/
structure Ps2outPoll where
  state : Ps2out
  txByte : Option Nat
  rxResponse : Option Nat
  callback : Option (Nat × Nat)
deriving Repr, DecidableEq

/-- Busy-countdown step at the top of `ps2out_task`. -/
def ps2out_busyStep (irqBusy : Bool) (s : Ps2out) : Ps2out :=
  if s.busy ≠ 0 then { s with busy := if irqBusy then 0 else s.busy - 1 } else s

/-- Transmit phase of `ps2out_task`: when idle and the bus lines are
high, either retire a fully-sent head packet or frame its next byte. -/
def ps2out_txPhase (irqBusy linesHigh : Bool) (s : Ps2out) :
    Ps2out × Option Nat :=
  if s.busy = 0 ∧ irqBusy = false ∧ linesHigh = true then
    match s.packets with
    | [] => (s, none)
    | p :: rest =>
      if s.sent = p.length then
        ({ s with packets := rest, sent := 0 }, none)
      else
        let b := p.getD s.sent 0
        ({ s with sent := s.sent + 1, lastTx := b, busy := 100 }, some b)
  else (s, none)

/-- Transmit-failure check of `ps2out_task`: rewind the cursor one byte. -/
def ps2out_txFailStep (txFail : Bool) (s : Ps2out) : Ps2out :=
  if txFail then { s with sent := if s.sent > 0 then s.sent - 1 else s.sent }
  else s

/-- Receive phase of `ps2out_task`: parity check, resend handling,
queue pre-emption and callback invocation.  Returns the new state, the
byte framed in response (if any) and the callback invocation (if any). -/
def ps2out_rxPhase (fifo : Nat) (s : Ps2out) :
    Ps2out × Option Nat × Option (Nat × Nat) :=
  if oddParity fifo ≠ fifo >>> 8 then
    -- parity error: request resend, do not invoke the callback
    (s, some 0xfe, none)
  else if fifo &&& 0xff = 0xfe then
    -- host requested resend: retransmit the last sent byte
    (s, some s.lastTx, none)
  else
    -- drop all queued packets, invoke the callback, remember the byte
    ({ s with packets := [], sent := 0, lastRx := fifo &&& 0xff },
      none, some (fifo &&& 0xff, s.lastRx))

/-- One call of `ps2out_task`.  External inputs: `irqBusy` (the PIO busy
interrupt flag), `txFail` (the PIO transmit-failure interrupt flag),
`linesHigh` (both bus lines idle), and `rx` (the 9-bit
data+parity word popped from the RX FIFO, when one is available). -/
def ps2out_task (irqBusy txFail linesHigh : Bool) (rx : Option Nat)
    (s : Ps2out) : Ps2outPoll :=
  let s := ps2out_busyStep irqBusy s
  let step1 := ps2out_txPhase irqBusy linesHigh s
  let s := ps2out_txFailStep txFail step1.1
  match rx with
  | none => ⟨s, step1.2, none, none⟩
  | some fifo =>
    let r := ps2out_rxPhase fifo s
    ⟨r.1, step1.2, r.2.1, r.2.2⟩

/-- C1: on every poll in which the link receives a word whose parity bit
differs from the odd parity recomputed over its low 8 bits, the receive
phase frames exactly one resend code (0xFE) and the receive callback is
not invoked; if instead parity is correct and the received byte equals
the resend code 0xFE, the receive phase reframes the last transmitted
byte and likewise does not invoke the callback. -/
theorem C1_parity_resend (irqBusy txFail linesHigh : Bool) (f : Nat)
    (s : Ps2out) :
    (oddParity f ≠ f >>> 8 →
      (ps2out_task irqBusy txFail linesHigh (some f) s).rxResponse = some 0xfe ∧
      (ps2out_task irqBusy txFail linesHigh (some f) s).callback = none) ∧
    (oddParity f = f >>> 8 → f &&& 0xff = 0xfe →
      (ps2out_task irqBusy txFail linesHigh (some f) s).rxResponse =
        some (ps2out_task irqBusy txFail linesHigh (some f) s).state.lastTx ∧
      (ps2out_task irqBusy txFail linesHigh (some f) s).callback = none) := by
  constructor
  · intro h
    simp only [ps2out_task, ps2out_rxPhase, if_pos h]
    exact ⟨trivial, trivial⟩
  · intro h1 h2
    simp only [ps2out_task, ps2out_rxPhase, if_neg (not_not_intro h1), if_pos h2]
    exact ⟨trivial, trivial⟩

/-- C1 witness: word 0 has data 0x00 with parity bit 0, but odd parity of
0x00 is 1 — a parity mismatch; word 254 is data 0xFE with parity bit 0,
which is correct parity for 0xFE. -/
theorem C1_parity_resend_witness :
    ((ps2out_task false false false (some 0) ps2outInit).rxResponse = some 0xfe ∧
     (ps2out_task false false false (some 0) ps2outInit).callback = none) ∧
    ((ps2out_task false false false (some 254) ps2outInit).rxResponse =
       some (ps2out_task false false false (some 254) ps2outInit).state.lastTx ∧
     (ps2out_task false false false (some 254) ps2outInit).callback = none) := by
  refine ⟨(C1_parity_resend false false false 0 ps2outInit).1 (by decide),
          (C1_parity_resend false false false 254 ps2outInit).2 (by decide) (by decide)⟩

/-! ## Keyboard protocol (`ps2_keyboard.c`) -/

/-- LED-bitmap remap table `led2ps2` (host LED byte to PS/2 LED bits). -/
def led2ps2 : List Nat := [0, 4, 1, 5, 2, 6, 3, 7]

/-- Modifier-usage-to-scancode table `mod2ps2`, indexed by
`key - HID_KEY_CONTROL_LEFT` (HID usage 0xE0..0xE7). -/
def mod2ps2 : List Nat := [0x14, 0x12, 0x11, 0x1f, 0x14, 0x59, 0x11, 0x27]

/-- HID-keycode-to-scancode table `hid2ps2` (Scancode Set 2), indexed by
the HID usage id 0x00..0x73. -/
def hid2ps2 : List Nat :=
  [0x00, 0x00, 0xfc, 0x00, 0x1c, 0x32, 0x21, 0x23, 0x24, 0x2b, 0x34, 0x33, 0x43, 0x3b, 0x42, 0x4b,
   0x3a, 0x31, 0x44, 0x4d, 0x15, 0x2d, 0x1b, 0x2c, 0x3c, 0x2a, 0x1d, 0x22, 0x35, 0x1a, 0x16, 0x1e,
   0x26, 0x25, 0x2e, 0x36, 0x3d, 0x3e, 0x46, 0x45, 0x5a, 0x76, 0x66, 0x0d, 0x29, 0x4e, 0x55, 0x54,
   0x5b, 0x5d, 0x5d, 0x4c, 0x52, 0x0e, 0x41, 0x49, 0x4a, 0x58, 0x05, 0x06, 0x04, 0x0c, 0x03, 0x0b,
   0x83, 0x0a, 0x01, 0x09, 0x78, 0x07, 0x7c, 0x7e, 0x7e, 0x70, 0x6c, 0x7d, 0x71, 0x69, 0x7a, 0x74,
   0x6b, 0x72, 0x75, 0x77, 0x4a, 0x7c, 0x7b, 0x79, 0x5a, 0x69, 0x72, 0x7a, 0x6b, 0x73, 0x74, 0x6c,
   0x75, 0x7d, 0x70, 0x71, 0x61, 0x2f, 0x37, 0x0f, 0x08, 0x10, 0x18, 0x20, 0x28, 0x30, 0x38, 0x40,
   0x48, 0x50, 0x57, 0x5f]

/-- Typematic repeat intervals table `kb_repeats` (microseconds). -/
def kb_repeats : List Nat :=
  [33333, 37453, 41667, 45872, 48309, 54054, 58480, 62500,
   66667, 75188, 83333, 91743, 100000, 108696, 116279, 125000,
   133333, 149254, 166667, 181818, 200000, 217391, 232558, 250000,
   270270, 303030, 333333, 370370, 400000, 434783, 476190, 500000]

/-- Typematic delays table `kb_delays` (milliseconds). -/
def kb_delays : List Nat := [250, 500, 750, 1000]

/-- Keyboard protocol state: scanning-enabled flag `kb_enabled`, modifier
bitmap `kb_modifiers`, armed repeat key `kb_repeat_key`, typematic delay
`kb_delay_ms` and interval `kb_repeat_us`, LED state `kb_set_led`. -/
structure KbState where
  enabled : Bool
  modifiers : Nat
  repeatKey : Nat
  delayMs : Nat
  repeatUs : Nat
  setLed : Nat
deriving Repr, DecidableEq

/-- Initial keyboard state (the C globals' initializers). -/
def kbInit : KbState := ⟨true, 0, 0, 500, 91743, 0⟩

/-- Timer callbacks the keyboard protocol can schedule. -/
inductive KbAlarm where
  | ledSync
  | resetReply
deriving Repr, DecidableEq

/-- `kb_set_leds_internal`: values above 7 are treated as 0, then the
byte is remapped through `led2ps2` into the exposed LED state (the
1 ms `kb_led_callback` alarm it arms is a no-op and is recorded by the
caller). -/
def kb_set_leds_internal (byte : Nat) (s : KbState) : KbState :=
  let b := if byte > 7 then 0 else byte
  { s with setLed := led2ps2.getD b 0 }

/-- Result of one `kb_receive` invocation: the new state, the packets
enqueued via `ps2out_send` (in order), and the alarms scheduled
(microsecond delay, callback). -/
structure KbRx where
  state : KbState
  packets : List (List Nat)
  alarms : List (Nat × KbAlarm)
deriving Repr, DecidableEq

/-- `kb_receive`: the keyboard host-command interpreter, driven by the
received byte and the previously received byte. -/
def kb_receive (byte prev : Nat) (s : KbState) : KbRx :=
  if prev = 0xed then -- Set LEDs parameter
    ⟨kb_set_leds_internal byte s, [[0xfa]], [(1000, .ledSync)]⟩
  else if prev = 0xf0 then -- Set scan code set parameter: just acknowledge
    ⟨s, [[0xfa]], []⟩
  else if prev = 0xf3 then -- Set typematic rate and delay parameter
    ⟨{ s with repeatUs := kb_repeats.getD (byte &&& 0x1f) 0,
              delayMs := kb_delays.getD ((byte &&& 0x60) >>> 5) 0 },
      [[0xfa]], []⟩
  else if byte = 0xff then -- Reset
    ⟨kb_set_leds_internal 7
        { s with enabled := false, repeatUs := 91743, delayMs := 500 },
      [[0xfa]], [(1000, .ledSync), (500000, .resetReply)]⟩
  else if byte = 0xee then -- Echo (no trailing ACK)
    ⟨s, [[0xee]], []⟩
  else if byte = 0xf0 ∨ byte = 0xf3 ∨ byte = 0xed then -- await parameter
    ⟨s, [[0xfa]], []⟩
  else if byte = 0xf2 then -- Identify (no trailing ACK)
    ⟨s, [[0xfa, 0xab, 0x83]], []⟩
  else if byte = 0xf4 then -- Enable scanning
    ⟨{ s with enabled := true }, [[0xfa]], []⟩
  else if byte = 0xf5 then -- Disable scanning, restore defaults
    ⟨kb_set_leds_internal 0
        { s with enabled := false, repeatUs := 91743, delayMs := 500 },
      [[0xfa]], [(1000, .ledSync)]⟩
  else if byte = 0xf6 then -- Set defaults (scanning stays enabled)
    ⟨kb_set_leds_internal 0 { s with repeatUs := 91743, delayMs := 500 },
      [[0xfa]], [(1000, .ledSync)]⟩
  else -- unknown command: ignored but still ACKed
    ⟨s, [[0xfa]], []⟩

/-- `kb_reset_callback` (fires 500 ms after a Reset command): clear the
LEDs, send the self-test-passed byte and re-enable scanning. -/
def kb_reset_callback (s : KbState) : KbState × List (List Nat) :=
  (kb_set_leds_internal 0 { s with enabled := true }, [[0xaa]])

/-- `key_is_modifier`: HID usage ids 0xE0 (left Ctrl) .. 0xE7 (right GUI). -/
def key_is_modifier (k : Nat) : Prop := 0xe0 ≤ k ∧ k ≤ 0xe7

instance key_is_modifier_dec : DecidablePred key_is_modifier := fun k => by
  unfold key_is_modifier; infer_instance

/-- `key_is_extended`: the usage-id ranges that need the 0xE0 scancode
prefix (Print Screen, Insert..Arrow Up, keypad divide/enter,
Application, Power, and GUI-range keys other than right Shift). -/
def key_is_extended (k : Nat) : Prop :=
  k = 0x46 ∨ (0x49 ≤ k ∧ k ≤ 0x52) ∨ k = 0x54 ∨ k = 0x58 ∨
  k = 0x65 ∨ k = 0x66 ∨ (0xe3 ≤ k ∧ k ≠ 0xe5)

instance key_is_extended_dec : DecidablePred key_is_extended := fun k => by
  unfold key_is_extended; infer_instance

/-- The Set 2 make code for a key: `mod2ps2` for modifiers, `hid2ps2`
for everything else (as in the tails of `ps2_keyboard_send_key` and
`kb_repeat_callback`). -/
def kb_scancode (k : Nat) : Nat :=
  if key_is_modifier k then mod2ps2.getD (k - 0xe0) 0 else hid2ps2.getD k 0

/-- `ps2_keyboard_send_key`: translate one key event into an enqueued
packet (if any) and the new keyboard state.  The typematic alarm that a
press arms (and a press/release disarms) is reflected in `repeatKey`. -/
def kb_send_key (k : Nat) (pressed : Bool) (s : KbState) :
    KbState × Option (List Nat) :=
  let s1 :=
    if key_is_modifier k then
      { s with modifiers :=
          if pressed then s.modifiers ||| (1 <<< (k - 0xe0))
          else s.modifiers &&& (0xff ^^^ (1 <<< (k - 0xe0))) }
    else s
  if ¬ key_is_modifier k ∧ (k < 0x04 ∨ 0x73 < k) then (s1, none)
  else if s1.enabled = false then (s1, none)
  else if k = 0x48 then -- HID_KEY_PAUSE
    let s2 := { s1 with repeatKey := 0 }
    if pressed then
      if s2.modifiers &&& 0x01 ≠ 0 ∨ s2.modifiers &&& 0x10 ≠ 0 then
        (s2, some [0xe0, 0x7e, 0xe0, 0xf0, 0x7e])
      else
        (s2, some [0xe1, 0x14, 0x77, 0xe1, 0xf0, 0x14, 0xf0, 0x77])
    else (s2, none)
  else
    let pre : List Nat := if key_is_extended k then [0xe0] else []
    if pressed then
      ({ s1 with repeatKey := k }, some (pre ++ [kb_scancode k]))
    else
      let s2 := if k = s1.repeatKey then { s1 with repeatKey := 0 } else s1
      (s2, some (pre ++ [0xf0, kb_scancode k]))

/-- C2: for every HID usage id with a scancode mapping (0x04..0x73 in
`hid2ps2` or a modifier 0xE0..0xE7 in `mod2ps2`) other than the
special-cased Pause key (0x48), with scanning enabled, a press enqueues
the make code and a following release enqueues 0xF0 plus the same make
code, each packet prefixed by 0xE0 exactly when `key_is_extended` holds. -/
theorem C2_press_release (k : Nat) (s : KbState)
    (hk : (0x04 ≤ k ∧ k ≤ 0x73) ∨ (0xe0 ≤ k ∧ k ≤ 0xe7))
    (hp : k ≠ 0x48) (he : s.enabled = true) :
    (kb_send_key k true s).2 =
      some ((if key_is_extended k then [0xe0] else []) ++ [kb_scancode k]) ∧
    (kb_send_key k false (kb_send_key k true s).1).2 =
      some ((if key_is_extended k then [0xe0] else []) ++
        [0xf0, kb_scancode k]) := by
  have hnr : ¬ (¬ key_is_modifier k ∧ (k < 0x04 ∨ 0x73 < k)) := by
    unfold key_is_modifier
    rcases hk with h | h
    · intro hc; rcases hc with ⟨_, h2⟩; omega
    · intro hc; exact hc.1 ⟨h.1, h.2⟩
  by_cases hm : key_is_modifier k
  · simp only [kb_send_key, if_pos hm, if_neg hnr, he,
      Bool.true_eq_false, if_false, if_neg hp]
    exact ⟨rfl, rfl⟩
  · simp only [kb_send_key, if_neg hm, if_neg hnr, he,
      Bool.true_eq_false, if_false, if_neg hp]
    exact ⟨rfl, rfl⟩

/-- C2 witness: key 0x04 (HID `A`, make code 0x1C, not extended) pressed
then released from the initial keyboard state. -/
theorem C2_press_release_witness :
    (kb_send_key 0x04 true kbInit).2 =
      some ((if key_is_extended 0x04 then [0xe0] else []) ++
        [kb_scancode 0x04]) ∧
    (kb_send_key 0x04 false (kb_send_key 0x04 true kbInit).1).2 =
      some ((if key_is_extended 0x04 then [0xe0] else []) ++
        [0xf0, kb_scancode 0x04]) :=
  C2_press_release 0x04 kbInit (by omega) (by omega) rfl

/-- C7: after the keyboard receives 0xED and then 0x07, the exposed LED
state is 7 — all three PS/2 LED bits (Scroll, Num, Caps) set — and the
0xED/0x07 exchange's reply is the single ACK packet `[0xFA]`, enqueued
after the LED update. -/
theorem C7_led_all_set (s : KbState) (p : Nat)
    (hp : p ≠ 0xed ∧ p ≠ 0xf0 ∧ p ≠ 0xf3) :
    (kb_receive 0x07 0xed (kb_receive 0xed p s).state).state.setLed = 7 ∧
    (kb_receive 0x07 0xed (kb_receive 0xed p s).state).packets =
      [[0xfa]] := by
  obtain ⟨h1, h2, h3⟩ := hp
  simp only [kb_receive, if_neg h1, if_neg h2, if_neg h3]
  norm_num [kb_set_leds_internal, led2ps2]

/-- C7 witness: initial keyboard state, previous byte 0x00. -/
theorem C7_led_all_set_witness :
    (kb_receive 0x07 0xed (kb_receive 0xed 0 kbInit).state).state.setLed = 7 ∧
    (kb_receive 0x07 0xed (kb_receive 0xed 0 kbInit).state).packets =
      [[0xfa]] :=
  C7_led_all_set kbInit 0 (by omega)

/-! ## Mouse protocol (`ps2_mouse.c`) -/

/-- Mouse protocol state: streaming flag `ms_streaming`, pending-motion
flag `ms_ismoving`, 24-bit magic-sequence shift register `ms_magic_seq`,
device id `ms_type` (0 = Standard, 3 = IntelliMouse, 4 = IntelliMouse
Explorer), sample rate `ms_rate`, button bitmap `ms_db` and accumulated
deltas `ms_dx`/`ms_dy`/`ms_dz`. -/
structure MsState where
  streaming : Bool
  ismoving : Bool
  magicSeq : Nat
  mtype : Nat
  rate : Nat
  db : Nat
  dx : Int
  dy : Int
  dz : Int
deriving Repr, DecidableEq

/-- Initial mouse state (the C globals' initializers;
`MS_RATE_DEFAULT = 100`). -/
def msInit : MsState := ⟨false, false, 0, 0, 100, 0, 0, 0, 0⟩

/-- `ms_reset`: clear the motion flag, button bitmap and accumulators. -/
def ms_reset (s : MsState) : MsState :=
  { s with ismoving := false, db := 0, dx := 0, dy := 0, dz := 0 }

/-- Timer callbacks the mouse protocol can schedule
(`ms_reset_callback` and `ms_send_callback`). -/
inductive MsAlarm where
  | resetReply
  | sendLoop
deriving Repr, DecidableEq

/-- Result of one `ms_receive` invocation: new state, packets enqueued
via `ps2out_send` (in order), alarms scheduled (millisecond delay). -/
structure MsRx where
  state : MsState
  packets : List (List Nat)
  alarms : List (Nat × MsAlarm)
deriving Repr, DecidableEq

/-- One step of the magic-sequence shift register:
`(ms_magic_seq << 8 | byte) & 0xffffff`. -/
def msMagicStep (m b : Nat) : Nat := ((m <<< 8) ||| b) &&& 0xffffff

/-- `ms_receive`: the mouse host-command interpreter, driven by the
received byte and the previously received byte. -/
def ms_receive (byte prev : Nat) (s : MsState) : MsRx :=
  if prev = 0xf3 then -- Set Sample Rate parameter
    let magic := msMagicStep s.magicSeq byte
    let t := if s.mtype = 0 ∧ magic = 0xc86450 then 3
             else if s.mtype = 3 ∧ magic = 0xc8c850 then 4
             else s.mtype
    ⟨ms_reset { s with rate := byte, magicSeq := magic, mtype := t },
      [[0xfa]], []⟩
  else if byte = 0xff then -- Reset (falls through Set Defaults, Disable)
    ⟨ms_reset { s with mtype := 0, rate := 100, streaming := false },
      [[0xfa]], [(100, .resetReply)]⟩
  else if byte = 0xf6 then -- Set Defaults (falls through Disable)
    ⟨ms_reset { s with rate := 100, streaming := false }, [[0xfa]], []⟩
  else if byte = 0xf5 then -- Disable Data Reporting
    ⟨ms_reset { s with streaming := false }, [[0xfa]], []⟩
  else if byte = 0xf4 then -- Enable Data Reporting
    ⟨ms_reset { s with streaming := true }, [[0xfa]], [(100, .sendLoop)]⟩
  else if byte = 0xf2 then -- Get Device ID (no trailing ACK)
    ⟨ms_reset s, [[0xfa, s.mtype]], []⟩
  else if byte = 0xeb then -- Read Data
    ⟨{ s with ismoving := true }, [[0xfa]], []⟩
  else if byte = 0xe9 then -- Status Request (no trailing ACK)
    ⟨s, [[0xfa, (if s.streaming then 1 else 0) <<< 5, 0x02, s.rate]], []⟩
  else -- unknown command
    ⟨ms_reset s, [[0xfa]], []⟩

/-- `ms_reset_callback` (fires 100 ms after a Reset command): the packet
it enqueues — self-test-passed 0xAA followed by the current mode byte. -/
def ms_reset_callback (s : MsState) : List Nat := [0xaa, s.mtype]

/-- `ms_clamp_xyz`: the u8 magnitude byte for an accumulated delta
(two's-complement truncation inside [-255, 255], saturation outside). -/
def ms_clamp_xyz (v : Int) : Nat :=
  if v < -255 then 1
  else if v > 255 then 255
  else (v % 256).toNat

/-- `ms_remain_xyz`: the residual delta carried to the next cycle. -/
def ms_remain_xyz (v : Int) : Int :=
  if v < -255 then v + 255 else if v > 255 then v - 255 else 0

/-- Wrap an integer to the signed 8-bit range, as a C `s8` cast does. -/
def wrapS8 (v : Int) : Int :=
  if 128 ≤ v % 256 then v % 256 - 256 else v % 256

/-- Wrap an integer to the signed 16-bit range, as a C `s16` does. -/
def wrapS16 (v : Int) : Int :=
  if 32768 ≤ v % 65536 then v % 65536 - 65536 else v % 65536

/-- Packet-assembly tail of `ms_send_callback` (from `u8 byte1 = ...` to
`ps2out_send`): returns the updated state and the packet payload. -/
def ms_assemble (s : MsState) : MsState × List Nat :=
  let byte1 := 0x08 ||| (s.db &&& 0x07)
  let byte2 := ms_clamp_xyz s.dx
  let byte3 := (256 - ms_clamp_xyz s.dy) % 256
  let byte4 : Int := wrapS8 (256 - s.dz)
  let byte1 := if s.dx < 0 then byte1 ||| 0x10 else byte1
  let byte1 := if s.dy > 0 then byte1 ||| 0x20 else byte1
  let byte2 := if byte2 = 0xaa then 0xab else byte2
  let byte3 := if byte3 = 0xaa then 0xab else byte3
  let tail : List Nat :=
    if s.mtype = 3 ∨ s.mtype = 4 then
      let b4 := if byte4 < -8 then -8 else if byte4 > 7 then 7 else byte4
      if s.mtype = 4 then
        [(b4 % 16).toNat ||| ((s.db <<< 1) &&& 0x30)]
      else
        [(b4 % 256).toNat]
    else []
  ({ s with dx := ms_remain_xyz s.dx, dy := ms_remain_xyz s.dy, dz := 0 },
    [byte1, byte2, byte3] ++ tail)

/-- Result of one `ms_send_callback` firing: the new state, the packet
sent (if any), and — when the callback returns `1000000 / ms_rate` —
the divisor `ms_rate` of that reschedule computation. -/
structure MsSend where
  state : MsState
  sent : Option (List Nat)
  divisor : Option Nat
deriving Repr, DecidableEq

/-- `ms_send_callback`: the periodic streaming-mode flush.  `busy` is
the externally sampled `ps2out_is_busy()`.  Every non-zero return path
of the C callback computes the next interval as `1000000 / ms_rate`;
`divisor = some r` records that the division executed with divisor `r`. -/
def ms_send_callback (busy : Bool) (s : MsState) : MsSend :=
  if s.streaming = false then ⟨s, none, none⟩
  else if busy = true then ⟨s, none, some s.rate⟩
  else if s.db = 0 ∧ s.dx = 0 ∧ s.dy = 0 ∧ s.dz = 0 then
    if s.ismoving = false then ⟨s, none, some s.rate⟩
    else
      let r := ms_assemble { s with ismoving := false }
      ⟨r.1, some r.2, some s.rate⟩
  else
    let r := ms_assemble { s with ismoving := true }
    ⟨r.1, some r.2, some s.rate⟩

/-- `ps2_mouse_send_movement`: accumulate one normalized mouse event. -/
def ps2_mouse_send_movement (buttons : Nat) (x y wheel : Int)
    (s : MsState) : MsState :=
  { s with db := buttons, dx := wrapS16 (s.dx + x), dy := wrapS16 (s.dy + y),
           dz := wrapS8 (s.dz + wheel) }

/-- Feeding one Set-Sample-Rate parameter byte: `ms_receive` with the
previous byte 0xF3. -/
def msFeedRate (b : Nat) (s : MsState) : MsState := (ms_receive b 0xf3 s).state

/-- Feeding a whole sequence of Set-Sample-Rate parameter bytes. -/
def msFeedSeq (l : List Nat) (s : MsState) : MsState :=
  l.foldl (fun st b => msFeedRate b st) s

/-- Bit-twiddling bridge: appending a byte under an 8-bit shift is
multiplication by 256 plus the byte. -/
theorem lor_low8 (m b : Nat) (hb : b < 256) : (m <<< 8) ||| b = m * 256 + b := by
  apply Nat.eq_of_testBit_eq
  intro i
  rw [Nat.testBit_lor, Nat.testBit_shiftLeft]
  rcases Nat.lt_or_ge i 8 with h | h
  · have hge : (decide (i ≥ 8)) = false := by simp; omega
    rw [hge, Bool.false_and, Bool.false_or]
    have h1 : (m * 256 + b).testBit i = ((m * 256 + b) % 2 ^ 8).testBit i := by
      rw [Nat.testBit_mod_two_pow, decide_eq_true h, Bool.true_and]
    have h2 : (m * 256 + b) % 2 ^ 8 = b := by
      have : (256 : Nat) = 2 ^ 8 := by norm_num
      omega
    rw [h1, h2]
  · have hge : (decide (i ≥ 8)) = true := decide_eq_true h
    rw [hge, Bool.true_and]
    have hb8 : b.testBit i = false :=
      Nat.testBit_eq_false_of_lt (lt_of_lt_of_le hb (by
        calc (256 : Nat) = 2 ^ 8 := by norm_num
        _ ≤ 2 ^ i := Nat.pow_le_pow_right (by norm_num) h))
    rw [hb8, Bool.or_false]
    have h3 : ((m * 256 + b) >>> 8).testBit (i - 8) = (m * 256 + b).testBit i := by
      rw [Nat.testBit_shiftRight]
      congr 1
      omega
    have h4 : (m * 256 + b) >>> 8 = m := by
      rw [Nat.shiftRight_eq_div_pow]
      have : (2 : Nat) ^ 8 = 256 := by norm_num
      rw [this]
      omega
    rw [← h3, h4]

/-- Arithmetic form of the magic-sequence shift-register step. -/
theorem msMagicStep_eq (m b : Nat) (hb : b < 256) :
    msMagicStep m b = (m * 256 + b) % 16777216 := by
  unfold msMagicStep
  rw [lor_low8 m b hb]
  have h : (0xffffff : Nat) = 2 ^ 24 - 1 := by norm_num
  rw [h, Nat.and_pow_two_sub_one_eq_mod]

/-- The mode after feeding one sample-rate parameter byte. -/
theorem msFeedRate_mtype (b : Nat) (s : MsState) :
    (msFeedRate b s).mtype =
      if s.mtype = 0 ∧ msMagicStep s.magicSeq b = 0xc86450 then 3
      else if s.mtype = 3 ∧ msMagicStep s.magicSeq b = 0xc8c850 then 4
      else s.mtype := by
  simp [msFeedRate, ms_receive, ms_reset]

/-- The shift register after feeding one sample-rate parameter byte. -/
theorem msFeedRate_magicSeq (b : Nat) (s : MsState) :
    (msFeedRate b s).magicSeq = msMagicStep s.magicSeq b := by
  simp [msFeedRate, ms_receive, ms_reset]

/-- From Standard mode, the magic parameter sequence 200,100,80 promotes
to IntelliMouse, whatever the shift register previously held. -/
theorem msFeed_intelli (s : MsState) (h0 : s.mtype = 0) :
    (msFeedSeq [200, 100, 80] s).mtype = 3 := by
  simp only [msFeedSeq, List.foldl, msFeedRate_mtype, msFeedRate_magicSeq, h0]
  have e1 := msMagicStep_eq s.magicSeq 200 (by norm_num)
  have e2 := msMagicStep_eq (msMagicStep s.magicSeq 200) 100 (by norm_num)
  have e3 := msMagicStep_eq (msMagicStep (msMagicStep s.magicSeq 200) 100) 80
    (by norm_num)
  have hne1 : msMagicStep s.magicSeq 200 ≠ 0xc86450 := by omega
  have hne2 : msMagicStep (msMagicStep s.magicSeq 200) 100 ≠ 0xc86450 := by
    omega
  have heq3 : msMagicStep (msMagicStep (msMagicStep s.magicSeq 200) 100) 80 =
      0xc86450 := by omega
  simp [hne1, hne2, heq3]

/-- From IntelliMouse mode, the magic parameter sequence 200,200,80
promotes to IntelliMouse Explorer, whatever the shift register held. -/
theorem msFeed_explorer (s : MsState) (h3 : s.mtype = 3) :
    (msFeedSeq [200, 200, 80] s).mtype = 4 := by
  simp only [msFeedSeq, List.foldl, msFeedRate_mtype, msFeedRate_magicSeq, h3]
  have e1 := msMagicStep_eq s.magicSeq 200 (by norm_num)
  have e2 := msMagicStep_eq (msMagicStep s.magicSeq 200) 200 (by norm_num)
  have e3 := msMagicStep_eq (msMagicStep (msMagicStep s.magicSeq 200) 200) 80
    (by norm_num)
  have hne1 : msMagicStep s.magicSeq 200 ≠ 0xc8c850 := by omega
  have hne2 : msMagicStep (msMagicStep s.magicSeq 200) 200 ≠ 0xc8c850 := by
    omega
  have heq3 : msMagicStep (msMagicStep (msMagicStep s.magicSeq 200) 200) 80 =
      0xc8c850 := by omega
  simp [hne1, hne2, heq3]

/-- From Standard mode with the shift register in its initial state, any
parameter triple other than the magic 200,100,80 leaves the mode
Standard. -/
theorem msFeed_other_standard (a b c : Nat) (ha : a < 256) (hb : b < 256)
    (hc : c < 256) (hne : ¬(a = 200 ∧ b = 100 ∧ c = 80)) (s : MsState)
    (h0 : s.mtype = 0) (hm : s.magicSeq = 0) :
    (msFeedSeq [a, b, c] s).mtype = 0 := by
  simp only [msFeedSeq, List.foldl, msFeedRate_mtype, msFeedRate_magicSeq,
    h0, hm]
  have e1 := msMagicStep_eq 0 a ha
  have e2 := msMagicStep_eq (msMagicStep 0 a) b hb
  have e3 := msMagicStep_eq (msMagicStep (msMagicStep 0 a) b) c hc
  have hne1 : msMagicStep 0 a ≠ 0xc86450 := by omega
  have hne2 : msMagicStep (msMagicStep 0 a) b ≠ 0xc86450 := by omega
  have hne3 : msMagicStep (msMagicStep (msMagicStep 0 a) b) c ≠ 0xc86450 := by
    omega
  simp [hne1, hne2, hne3]

/-- From IntelliMouse mode with the shift register as the first magic
sequence left it, any parameter triple other than the magic 200,200,80
leaves the mode IntelliMouse. -/
theorem msFeed_other_intelli (a b c : Nat) (ha : a < 256) (hb : b < 256)
    (hc : c < 256) (hne : ¬(a = 200 ∧ b = 200 ∧ c = 80)) (s : MsState)
    (h3 : s.mtype = 3) (hm : s.magicSeq = 0xc86450) :
    (msFeedSeq [a, b, c] s).mtype = 3 := by
  simp only [msFeedSeq, List.foldl, msFeedRate_mtype, msFeedRate_magicSeq,
    h3, hm]
  have e1 := msMagicStep_eq 0xc86450 a ha
  have e2 := msMagicStep_eq (msMagicStep 0xc86450 a) b hb
  have e3 := msMagicStep_eq (msMagicStep (msMagicStep 0xc86450 a) b) c hc
  have hne1 : msMagicStep 0xc86450 a ≠ 0xc8c850 := by omega
  have hne2 : msMagicStep (msMagicStep 0xc86450 a) b ≠ 0xc8c850 := by omega
  have hne3 : msMagicStep (msMagicStep (msMagicStep 0xc86450 a) b) c ≠
      0xc8c850 := by omega
  simp [hne1, hne2, hne3]

/-- One sample-rate parameter byte never demotes the mode. -/
theorem msFeedRate_mono (b : Nat) (s : MsState) :
    s.mtype ≤ (msFeedRate b s).mtype := by
  rw [msFeedRate_mtype]
  split_ifs with h1 h2 <;> omega

/-- No sample-rate parameter sequence ever demotes the mode. -/
theorem msFeedSeq_mono (l : List Nat) (s : MsState) :
    s.mtype ≤ (msFeedSeq l s).mtype := by
  induction l generalizing s with
  | nil => exact Nat.le_refl _
  | cons b t ih =>
    exact Nat.le_trans (msFeedRate_mono b s) (ih (msFeedRate b s))

/-- C3: sample-rate mode negotiation.  (1) From Standard, the parameter
sequence 200,100,80 promotes to IntelliMouse.  (2) From IntelliMouse,
200,200,80 promotes to IntelliMouse Explorer.  (3)/(4) Any other byte
triple leaves the mode unchanged, starting from the scenario states
(Standard with the detector in its initial state; IntelliMouse with the
detector as the first magic sequence left it).  (5) No sample-rate
sequence ever demotes the mode. -/
theorem C3_mode_negotiation :
    (∀ s : MsState, s.mtype = 0 → (msFeedSeq [200, 100, 80] s).mtype = 3) ∧
    (∀ s : MsState, s.mtype = 3 → (msFeedSeq [200, 200, 80] s).mtype = 4) ∧
    (∀ a b c : Nat, a < 256 → b < 256 → c < 256 →
      ¬(a = 200 ∧ b = 100 ∧ c = 80) →
      ∀ s : MsState, s.mtype = 0 → s.magicSeq = 0 →
        (msFeedSeq [a, b, c] s).mtype = 0) ∧
    (∀ a b c : Nat, a < 256 → b < 256 → c < 256 →
      ¬(a = 200 ∧ b = 200 ∧ c = 80) →
      ∀ s : MsState, s.mtype = 3 → s.magicSeq = 0xc86450 →
        (msFeedSeq [a, b, c] s).mtype = 3) ∧
    (∀ (l : List Nat) (s : MsState), s.mtype ≤ (msFeedSeq l s).mtype) :=
  ⟨msFeed_intelli, msFeed_explorer,
   fun a b c ha hb hc hne s h0 hm => msFeed_other_standard a b c ha hb hc hne s h0 hm,
   fun a b c ha hb hc hne s h3 hm => msFeed_other_intelli a b c ha hb hc hne s h3 hm,
   msFeedSeq_mono⟩

/-- C3 witness: the five parts at concrete states — a fresh mouse is
promoted by 200,100,80; an IntelliMouse state by 200,200,80; the triples
1,2,3 change nothing from either scenario state; the sequence [10]
never demotes. -/
theorem C3_mode_negotiation_witness :
    (msFeedSeq [200, 100, 80] msInit).mtype = 3 ∧
    (msFeedSeq [200, 200, 80] { msInit with mtype := 3 }).mtype = 4 ∧
    (msFeedSeq [1, 2, 3] msInit).mtype = 0 ∧
    (msFeedSeq [1, 2, 3]
      { msInit with mtype := 3, magicSeq := 0xc86450 }).mtype = 3 ∧
    msInit.mtype ≤ (msFeedSeq [10] msInit).mtype :=
  ⟨C3_mode_negotiation.1 msInit rfl,
   C3_mode_negotiation.2.1 { msInit with mtype := 3 } rfl,
   C3_mode_negotiation.2.2.1 1 2 3 (by omega) (by omega) (by omega)
     (by omega) msInit rfl rfl,
   C3_mode_negotiation.2.2.2.1 1 2 3 (by omega) (by omega) (by omega)
     (by omega) { msInit with mtype := 3, magicSeq := 0xc86450 } rfl rfl,
   C3_mode_negotiation.2.2.2.2 [10] msInit⟩

/-- C4 counterexample: receiving Reset (0xFF) in IntelliMouse mode, the
100 ms-delayed self-test packet actually enqueued by `ms_reset_callback`
is `[0xAA, 0x00]` — it does not consist of ACK, 0xAA and the mode byte
(`[0xFA, 0xAA, mode]` for the post-reset mode 0 or pre-reset mode 3);
the ACK is enqueued immediately instead. -/
theorem C4_scheduled_reply_counterexample :
    (ms_receive 0xff 0 { msInit with mtype := 3 }).alarms =
      [(100, MsAlarm.resetReply)] ∧
    (ms_receive 0xff 0 { msInit with mtype := 3 }).packets = [[0xfa]] ∧
    ms_reset_callback (ms_receive 0xff 0 { msInit with mtype := 3 }).state =
      [0xaa, 0x00] ∧
    ([0xaa, 0x00] : List Nat) ≠ [0xfa, 0xaa, 0x00] ∧
    ([0xaa, 0x00] : List Nat) ≠ [0xfa, 0xaa, 0x03] := by
  refine ⟨rfl, rfl, rfl, by decide, by decide⟩

/-- C4 (amended): on Reset (0xFF, with the previous byte not a pending
0xF3 parameter), the mouse enqueues the ACK immediately, schedules the
self-test reply — 0xAA followed by the mode byte — after 100 ms, and
resets the mode to Standard, so the scheduled reply is `[0xAA, 0x00]`. -/
theorem C4_reset_selftest (s : MsState) (prev : Nat) (hprev : prev ≠ 0xf3) :
    (ms_receive 0xff prev s).state.mtype = 0 ∧
    (ms_receive 0xff prev s).packets = [[0xfa]] ∧
    (ms_receive 0xff prev s).alarms = [(100, MsAlarm.resetReply)] ∧
    ms_reset_callback (ms_receive 0xff prev s).state = [0xaa, 0x00] := by
  simp [ms_receive, hprev, ms_reset, ms_reset_callback]

/-- C4 witness: Reset received in IntelliMouse Explorer mode. -/
theorem C4_reset_selftest_witness :
    (ms_receive 0xff 0 { msInit with mtype := 4 }).state.mtype = 0 ∧
    (ms_receive 0xff 0 { msInit with mtype := 4 }).packets = [[0xfa]] ∧
    (ms_receive 0xff 0 { msInit with mtype := 4 }).alarms =
      [(100, MsAlarm.resetReply)] ∧
    ms_reset_callback (ms_receive 0xff 0 { msInit with mtype := 4 }).state =
      [0xaa, 0x00] :=
  C4_reset_selftest { msInit with mtype := 4 } 0 (by omega)

/-- C9: the host can reach a streaming state with sample rate 0 (enable
reporting with 0xF4, then Set Sample Rate 0xF3 with parameter 0x00); in
that state the periodic send callback executes its reschedule
computation `1000000 / ms_rate` with divisor 0 — a division by zero. -/
theorem C9_divide_by_zero :
    (ms_receive 0x00 0xf3
        (ms_receive 0xf3 0xf4
          (ms_receive 0xf4 0x00 msInit).state).state).state.streaming = true ∧
    (ms_receive 0x00 0xf3
        (ms_receive 0xf3 0xf4
          (ms_receive 0xf4 0x00 msInit).state).state).state.rate = 0 ∧
    (ms_send_callback false
        (ms_receive 0x00 0xf3
          (ms_receive 0xf3 0xf4
            (ms_receive 0xf4 0x00 msInit).state).state).state).divisor =
      some 0 := by
  refine ⟨rfl, rfl, ?_⟩
  decide

/-- C10: the Set Defaults command (0xF6) restores the default sample
rate 100, disables streaming and clears the button/movement
accumulators but leaves the mode unchanged; and across all host
commands, a transition whose result is Standard mode either started in
Standard mode or was Reset (0xFF received as a command byte). -/
theorem C10_defaults_keep_mode :
    (∀ (s : MsState) (prev : Nat), prev ≠ 0xf3 →
      (ms_receive 0xf6 prev s).state.rate = 100 ∧
      (ms_receive 0xf6 prev s).state.streaming = false ∧
      (ms_receive 0xf6 prev s).state.db = 0 ∧
      (ms_receive 0xf6 prev s).state.dx = 0 ∧
      (ms_receive 0xf6 prev s).state.dy = 0 ∧
      (ms_receive 0xf6 prev s).state.dz = 0 ∧
      (ms_receive 0xf6 prev s).state.mtype = s.mtype) ∧
    (∀ (s : MsState) (byte prev : Nat),
      (ms_receive byte prev s).state.mtype = 0 →
      s.mtype = 0 ∨ (prev ≠ 0xf3 ∧ byte = 0xff)) := by
  constructor
  · intro s prev hprev
    simp [ms_receive, hprev, ms_reset]
  · intro s byte prev h
    by_cases hp : prev = 0xf3
    · simp only [ms_receive, if_pos hp, ms_reset] at h
      left
      split_ifs at h with h1 h2
      omega
    · simp only [ms_receive, if_neg hp, ms_reset] at h
      split_ifs at h <;> simp_all

/-- C10 witness: Set Defaults in Explorer mode keeps Explorer mode; a
ms_receive step that ends in Standard mode from Explorer mode was a
Reset. -/
theorem C10_defaults_keep_mode_witness :
    ((ms_receive 0xf6 0 { msInit with mtype := 4 }).state.rate = 100 ∧
     (ms_receive 0xf6 0 { msInit with mtype := 4 }).state.streaming = false ∧
     (ms_receive 0xf6 0 { msInit with mtype := 4 }).state.db = 0 ∧
     (ms_receive 0xf6 0 { msInit with mtype := 4 }).state.dx = 0 ∧
     (ms_receive 0xf6 0 { msInit with mtype := 4 }).state.dy = 0 ∧
     (ms_receive 0xf6 0 { msInit with mtype := 4 }).state.dz = 0 ∧
     (ms_receive 0xf6 0 { msInit with mtype := 4 }).state.mtype =
       ({ msInit with mtype := 4 } : MsState).mtype) ∧
    (({ msInit with mtype := 4 } : MsState).mtype = 0 ∨
      ((0 : Nat) ≠ 0xf3 ∧ (0xff : Nat) = 0xff)) :=
  ⟨C10_defaults_keep_mode.1 { msInit with mtype := 4 } 0 (by omega),
   C10_defaults_keep_mode.2 { msInit with mtype := 4 } 0xff 0 (by decide)⟩

/-- Saturation to [-8, 7] written as an if-chain (the code's form)
equals the max/min form. -/
theorem clampInt_eq (v : Int) :
    (if v < -8 then (-8 : Int) else if v > 7 then 7 else v) =
      max (-8) (min 7 v) := by
  split_ifs <;> omega

/-- The fourth packet byte as the amended claim describes it: the
negation of the accumulated wheel delta, truncated to signed 8 bits,
clamped to [-8, 7] and encoded two's-complement; in Explorer mode its
low nibble plus the back/forward buttons shifted into bits 4-5. -/
def msWheelByteSpec (s : MsState) : Nat :=
  let c : Int := max (-8) (min 7 (wrapS8 (256 - s.dz)))
  if s.mtype = 4 then (c % 16).toNat ||| ((s.db <<< 1) &&& 0x30)
  else (c % 256).toNat

/-- The state update performed by the packet-assembly tail. -/
theorem ms_assemble_state (s : MsState) :
    (ms_assemble s).1 =
      { s with dx := ms_remain_xyz s.dx, dy := ms_remain_xyz s.dy,
               dz := 0 } := rfl

/-- In IntelliMouse or Explorer mode the assembled packet has four
bytes and its fourth byte is `msWheelByteSpec`. -/
theorem ms_assemble_parts (s : MsState) (hty : s.mtype = 3 ∨ s.mtype = 4) :
    (ms_assemble s).2.length = 4 ∧
    (ms_assemble s).2.getD 3 0 = msWheelByteSpec s := by
  rcases hty with h | h <;>
    simp [ms_assemble, msWheelByteSpec, h, clampInt_eq]

/-- The second byte of any assembled packet (x magnitude). -/
theorem ms_assemble_xbyte (s : MsState) :
    (ms_assemble s).2.getD 1 0 =
      (if ms_clamp_xyz s.dx = 0xaa then 0xab else ms_clamp_xyz s.dx) := by
  simp [ms_assemble]

/-- C5 counterexample: in IntelliMouse mode with accumulated wheel delta
`dz = 1`, the flushed packet's fourth byte is 255 (the two's complement
of -1, the negated delta), not 1 (the delta clamped to [-8, 7]) as the
claim states. -/
theorem C5_wheel_counterexample :
    (ms_send_callback false
      { msInit with streaming := true, mtype := 3, dz := 1 }).sent =
      some [8, 0, 0, 255] ∧ (255 : Nat) ≠ 1 := by
  refine ⟨rfl, by decide⟩

/-- C5 (amended): on a flush in IntelliMouse or Explorer mode, the
fourth packet byte is the NEGATED accumulated wheel delta (truncated to
signed 8 bits) clamped to [-8, 7], Explorer mode packing the
back/forward buttons into bits 4-5; the wheel accumulator is zeroed
afterwards (residual discarded) while residual x/y beyond the clamp is
retained via `ms_remain_xyz`. -/
theorem C5_wheel_byte (s : MsState) (hstr : s.streaming = true)
    (hty : s.mtype = 3 ∨ s.mtype = 4)
    (hpend : ¬(s.db = 0 ∧ s.dx = 0 ∧ s.dy = 0 ∧ s.dz = 0 ∧
      s.ismoving = false)) :
    ∃ p, (ms_send_callback false s).sent = some p ∧ p.length = 4 ∧
      p.getD 3 0 = msWheelByteSpec s ∧
      (ms_send_callback false s).state.dz = 0 ∧
      (ms_send_callback false s).state.dx = ms_remain_xyz s.dx ∧
      (ms_send_callback false s).state.dy = ms_remain_xyz s.dy := by
  unfold ms_send_callback
  rw [if_neg (show ¬ s.streaming = false by simp [hstr])]
  rw [if_neg (show ¬ (false : Bool) = true by simp)]
  by_cases hq : s.db = 0 ∧ s.dx = 0 ∧ s.dy = 0 ∧ s.dz = 0
  · rw [if_pos hq]
    have him : ¬ s.ismoving = false := fun hf =>
      hpend ⟨hq.1, hq.2.1, hq.2.2.1, hq.2.2.2, hf⟩
    rw [if_neg him]
    refine ⟨(ms_assemble { s with ismoving := false }).2, rfl, ?_, ?_, ?_, ?_, ?_⟩
    · exact (ms_assemble_parts { s with ismoving := false } hty).1
    · exact (ms_assemble_parts { s with ismoving := false } hty).2
    · rfl
    · rfl
    · rfl
  · rw [if_neg hq]
    refine ⟨(ms_assemble { s with ismoving := true }).2, rfl, ?_, ?_, ?_, ?_, ?_⟩
    · exact (ms_assemble_parts { s with ismoving := true } hty).1
    · exact (ms_assemble_parts { s with ismoving := true } hty).2
    · rfl
    · rfl
    · rfl

/-- Concrete Explorer-mode state used by the C5 witness: wheel delta 20,
back button held. -/
def msC5WitnessState : MsState :=
  { msInit with streaming := true, mtype := 4, db := 8, dz := 20 }

/-- C5 witness: Explorer mode, wheel delta 20, back button held. -/
theorem C5_wheel_byte_witness :
    ∃ p, (ms_send_callback false msC5WitnessState).sent = some p ∧
      p.length = 4 ∧
      p.getD 3 0 = msWheelByteSpec msC5WitnessState ∧
      (ms_send_callback false msC5WitnessState).state.dz = 0 ∧
      (ms_send_callback false msC5WitnessState).state.dx =
        ms_remain_xyz msC5WitnessState.dx ∧
      (ms_send_callback false msC5WitnessState).state.dy =
        ms_remain_xyz msC5WitnessState.dy :=
  C5_wheel_byte msC5WitnessState rfl (Or.inr rfl)
    (by intro h; exact absurd h.1 (by decide))

/-- C6: with accumulated dx = 300 and streaming on, one flush produces a
packet whose x-magnitude byte is 255 and leaves a residual dx of 45. -/
theorem C6_dx_300 (s : MsState) (hstr : s.streaming = true)
    (hdx : s.dx = 300) :
    ∃ p, (ms_send_callback false s).sent = some p ∧ p.getD 1 0 = 255 ∧
      (ms_send_callback false s).state.dx = 45 := by
  have hq : ¬(s.db = 0 ∧ s.dx = 0 ∧ s.dy = 0 ∧ s.dz = 0) := by
    intro hc
    have h2 := hc.2.1
    rw [hdx] at h2
    norm_num at h2
  unfold ms_send_callback
  rw [if_neg (show ¬ s.streaming = false by simp [hstr])]
  rw [if_neg (show ¬ (false : Bool) = true by simp)]
  rw [if_neg hq]
  refine ⟨(ms_assemble { s with ismoving := true }).2, rfl, ?_, ?_⟩
  · rw [ms_assemble_xbyte]
    have hcl : ms_clamp_xyz ({ s with ismoving := true } : MsState).dx = 255 := by
      show ms_clamp_xyz s.dx = 255
      rw [hdx]
      decide
    rw [hcl]
    decide
  · show (ms_assemble { s with ismoving := true }).1.dx = 45
    rw [ms_assemble_state]
    show ms_remain_xyz s.dx = 45
    rw [hdx]
    decide

/-- C6 witness: the concrete state with dx = 300. -/
theorem C6_dx_300_witness :
    ∃ p, (ms_send_callback false
        { msInit with streaming := true, dx := 300 }).sent = some p ∧
      p.getD 1 0 = 255 ∧
      (ms_send_callback false
        { msInit with streaming := true, dx := 300 }).state.dx = 45 :=
  C6_dx_300 { msInit with streaming := true, dx := 300 } rfl rfl

/-! ## HID report dispatcher (`main.c`, `tuh_hid_report_received_cb`,
keyboard paths) -/

/-- Per-instance keyboard dispatch snapshots (`hid_info[instance]`):
the modifier byte, the 6-slot boot-protocol key array and the 16-byte
NKRO bitmap. -/
@[ext]
structure HidKbState where
  modifiers : Nat
  boot : List Nat
  nkro : List Nat
deriving Repr, DecidableEq

/-- Snapshot state as initialized on keyboard mount. -/
def hidKbInit : HidKbState := ⟨0, List.replicate 6 0, List.replicate 16 0⟩

/-- The events emitted by one byte's bit-diff loop: for each of the 8
bits that differ between the new and old byte, one
`ps2_keyboard_send_key (base + j, new bit)` call, in bit order. -/
def nkroByteEvents (newB oldB base : Nat) : List (Nat × Bool) :=
  (List.range 8).filterMap fun j =>
    if (newB >>> j) &&& 1 ≠ (oldB >>> j) &&& 1 then
      some (base + j, ((newB >>> j) &&& 1) == 1)
    else none

/-- A byte diffed against itself emits nothing. -/
theorem nkroByteEvents_self (b base : Nat) : nkroByteEvents b b base = [] := by
  simp [nkroByteEvents]

/-- The keyboard part of `tuh_hid_report_received_cb`, from the modifier
diff onwards (`report` points at the modifier byte, after any report-id
prefix was consumed).  Returns the updated snapshots and the list of
`ps2_keyboard_send_key` events in call order. -/
def kb_dispatch (report : List Nat) (st : HidKbState) :
    HidKbState × List (Nat × Bool) :=
  let mods := report.getD 0 0
  let modEvents :=
    if mods ≠ st.modifiers then nkroByteEvents mods st.modifiers 0xe0 else []
  let st1 := if mods ≠ st.modifiers then { st with modifiers := mods } else st
  let body := report.drop 1
  if 12 < body.length ∧ body.length < 31 then
    -- NKRO bitmap: diff every byte, key id = byte index * 8 + bit index
    let m := min body.length 16
    let nkroEvents := (List.range m).flatMap fun i =>
      nkroByteEvents (body.getD i 0) (st1.nkro.getD i 0) (i * 8)
    ({ st1 with nkro := body.take m ++ st1.nkro.drop m },
      modEvents ++ nkroEvents)
  else if body.length = 8 ∨ body.length = 7 ∨ body.length = 6 then
    -- boot protocol: releases for vanished codes, then presses for new
    let body6 := if body.length = 6 then body else body.drop 1
    let arr := (List.range 6).map fun i => body6.getD i 0
    let releases := (List.range 6).filterMap fun i =>
      let b := st1.boot.getD i 0
      if b ≠ 0 ∧ b ∉ arr then some (b, false) else none
    let presses := (List.range 6).filterMap fun i =>
      let r := body6.getD i 0
      if r ≠ 0 ∧ r ∉ st1.boot then some (r, true) else none
    ({ st1 with boot := arr }, modEvents ++ releases ++ presses)
  else (st1, modEvents)

/-- Dispatch always records the report's modifier byte. -/
theorem kb_dispatch_modifiers (report : List Nat) (st : HidKbState) :
    (kb_dispatch report st).1.modifiers = report.getD 0 0 := by
  simp only [kb_dispatch]
  split_ifs <;> simp_all

/-- In the NKRO branch the stored bitmap becomes the report's first
`min len 16` bytes, the rest of the old snapshot kept. -/
theorem kb_dispatch_nkro_field (report : List Nat) (st : HidKbState)
    (hb : 12 < (report.drop 1).length ∧ (report.drop 1).length < 31) :
    (kb_dispatch report st).1.nkro =
      (report.drop 1).take (min (report.drop 1).length 16) ++
        st.nkro.drop (min (report.drop 1).length 16) := by
  simp only [kb_dispatch, if_pos hb]
  split_ifs <;> rfl

/-- The NKRO branch leaves the boot snapshot untouched. -/
theorem kb_dispatch_nkro_boot (report : List Nat) (st : HidKbState)
    (hb : 12 < (report.drop 1).length ∧ (report.drop 1).length < 31) :
    (kb_dispatch report st).1.boot = st.boot := by
  simp only [kb_dispatch, if_pos hb]
  split_ifs <;> rfl

/-- A getD inside the copied prefix of the new snapshot reads the
report byte. -/
theorem getD_take_append (l rest : List Nat) (m i : Nat) (him : i < m)
    (hml : m ≤ l.length) :
    (l.take m ++ rest).getD i 0 = l.getD i 0 := by
  rw [List.getD_append _ _ _ i (by rw [List.length_take]; omega)]
  rw [List.getD_eq_getElem?_getD, List.getD_eq_getElem?_getD,
    List.getElem?_take, if_pos him]

/-- An NKRO dispatch whose report matches both snapshots emits no
events. -/
theorem kb_dispatch_nkro_events_nil (report : List Nat) (st : HidKbState)
    (hb : 12 < (report.drop 1).length ∧ (report.drop 1).length < 31)
    (hmod : report.getD 0 0 = st.modifiers)
    (hagree : ∀ i < min (report.drop 1).length 16,
      (report.drop 1).getD i 0 = st.nkro.getD i 0) :
    (kb_dispatch report st).2 = [] := by
  simp only [kb_dispatch, if_pos hb, if_neg (not_not_intro hmod),
    List.nil_append]
  rw [List.flatMap_eq_nil_iff]
  intro i hi
  rw [List.mem_range] at hi
  rw [hagree i hi]
  exact nkroByteEvents_self _ _

/-- C8: dispatching the same NKRO keyboard report twice in succession
emits no key events on the second dispatch, and the snapshots are
unchanged by it — after the first dispatch the stored modifier byte and
bitmap equal the report's, so every bit-diff on the second dispatch is
empty. -/
theorem C8_nkro_idempotent (report : List Nat) (st : HidKbState)
    (h1 : 13 < report.length) (h2 : report.length < 32) :
    (kb_dispatch report (kb_dispatch report st).1).2 = [] ∧
    (kb_dispatch report (kb_dispatch report st).1).1 =
      (kb_dispatch report st).1 := by
  have hb : 12 < (report.drop 1).length ∧ (report.drop 1).length < 31 := by
    rw [List.length_drop]; omega
  have hmle : min (report.drop 1).length 16 ≤ (report.drop 1).length :=
    Nat.min_le_left _ _
  have hnk := kb_dispatch_nkro_field report st hb
  have hmods := kb_dispatch_modifiers report st
  have hagree : ∀ i < min (report.drop 1).length 16,
      (report.drop 1).getD i 0 = (kb_dispatch report st).1.nkro.getD i 0 := by
    intro i hi
    rw [hnk, getD_take_append _ _ _ i hi hmle]
  constructor
  · exact kb_dispatch_nkro_events_nil report (kb_dispatch report st).1 hb
      hmods.symm hagree
  · ext1
    · rw [kb_dispatch_modifiers, kb_dispatch_modifiers]
    · rw [kb_dispatch_nkro_boot _ _ hb, kb_dispatch_nkro_boot _ _ hb]
    · rw [kb_dispatch_nkro_field _ _ hb, hnk,
        List.drop_left' (by rw [List.length_take]; omega)]

/-- C8 witness: a 16-byte NKRO report (modifier byte followed by 15
bitmap bytes) dispatched twice from the freshly mounted snapshot. -/
theorem C8_nkro_idempotent_witness :
    (kb_dispatch (List.replicate 16 0x55)
        (kb_dispatch (List.replicate 16 0x55) hidKbInit).1).2 = [] ∧
    (kb_dispatch (List.replicate 16 0x55)
        (kb_dispatch (List.replicate 16 0x55) hidKbInit).1).1 =
      (kb_dispatch (List.replicate 16 0x55) hidKbInit).1 :=
  C8_nkro_idempotent (List.replicate 16 0x55) hidKbInit (by decide) (by decide)

end Hecate
